import Mathlib

/-!
Verification of the OHS-report application core: the Zod report schema and
validator (source: the report form module defining `ohsReportSchema`), the
paginated PDF renderer (source: `generatePDF`), and the storage actions
(source: `app/actions.ts`).  Each definition is a shallow embedding of the
corresponding source function; theorems check the specified properties.
-/

namespace OhsReport

/-! ## Data model

The report shape is one fixed nested record.  The generic `ReportT` is
instantiated twice: `Candidate` (validator input: every required leaf may be
absent, modelled as `Option String`; `date` is `Option Int`, a present value
standing for a valid `Date` object) and `Report` (validated value: required
leaves are `String`, optional leaves stay `Option String`, and `date` is the
string later produced by `toLocaleDateString`, an environment-supplied
formatting the renderer treats as opaque text). -/

structure KeyHighlightsT (ρ : Type) where
  injuryReduction : ρ
  safetyTraining : ρ
  emergencyDrills : ρ
  riskAssessmentCompletion : ρ
deriving DecidableEq, Repr

structure ExecutiveSummaryT (ρ : Type) where
  purposeOfReport : ρ
  keyHighlights : KeyHighlightsT ρ
deriving DecidableEq, Repr

structure IncidentSummaryT (ρ : Type) where
  totalIncidents : ρ
  minorInjuries : ρ
  majorAccidents : ρ
  ltifr : ρ
  trir : ρ
deriving DecidableEq, Repr

structure HealthSafetyPerformanceT (ρ : Type) where
  incidentSummary : IncidentSummaryT ρ
  yearOnYearComparison : Option String
  leadingIndicators : Option String
deriving DecidableEq, Repr

structure TrainingInitiativesT (ρ : Type) where
  employeesTrained : ρ
  topicsCovered : ρ
  specializedTraining : ρ
deriving DecidableEq, Repr

structure SafetyTrainingSectionT (ρ : Type) where
  trainingInitiatives : TrainingInitiativesT ρ
  newHireOrientation : ρ
  refresherCourses : ρ
deriving DecidableEq, Repr

structure RiskAssessmentsT (ρ : Type) where
  completionRate : ρ
  methodology : ρ
deriving DecidableEq, Repr

structure HazardIdentificationT (ρ : Type) where
  riskAssessments : RiskAssessmentsT ρ
  topHazards : ρ
  controlMeasures : ρ
deriving DecidableEq, Repr

structure IncidentInvestigationsT (ρ : Type) where
  totalInvestigated : ρ
  rootCauses : ρ
  correctiveActions : ρ
  followUpVerification : ρ
deriving DecidableEq, Repr

structure DrillsT (ρ : Type) where
  drillsConducted : ρ
  participationRate : ρ
  evacuationSuccessRate : ρ
deriving DecidableEq, Repr

structure EmergencyPreparednessT (ρ : Type) where
  drills : DrillsT ρ
  firstAidCapabilities : ρ
  emergencyResponsePlans : ρ
deriving DecidableEq, Repr

structure PpeComplianceT (ρ : Type) where
  complianceRate : ρ
  ppeTypes : ρ
deriving DecidableEq, Repr

structure PpeAndEquipmentT (ρ : Type) where
  ppeCompliance : PpeComplianceT ρ
  equipmentInspections : ρ
deriving DecidableEq, Repr

structure EmployeeHealthT (ρ : Type) where
  wellnessInitiatives : ρ
  campaignsAndAwareness : ρ
deriving DecidableEq, Repr

structure ChallengesT (ρ : Type) where
  keyChallenges : ρ
  proposedImprovements : ρ
deriving DecidableEq, Repr

structure SignOffT (ρ : Type) where
  inspectorName : ρ
  inspectorSignature : Option String
deriving DecidableEq, Repr

structure ReportT (ρ δ : Type) where
  depotLocation : ρ
  reportingPeriod : ρ
  preparedBy : ρ
  date : δ
  executiveSummary : ExecutiveSummaryT ρ
  policyStatement : ρ
  healthAndSafetyPerformance : HealthSafetyPerformanceT ρ
  safetyTraining : SafetyTrainingSectionT ρ
  hazardIdentification : HazardIdentificationT ρ
  incidentInvestigations : IncidentInvestigationsT ρ
  emergencyPreparedness : EmergencyPreparednessT ρ
  ppeAndEquipment : PpeAndEquipmentT ρ
  employeeHealth : EmployeeHealthT ρ
  challenges : ChallengesT ρ
  recommendations : ρ
  signOff : SignOffT ρ
  appendices : Option String
deriving DecidableEq, Repr

/-- Validator input: an untyped candidate record (sub-records present, leaves
possibly absent). -/
abbrev Candidate := ReportT (Option String) (Option Int)

/-- Validated report value, as consumed by the renderer. -/
abbrev Report := ReportT String String

/-! ## Validator (embedding of `ohsReportSchema`)

The Zod object applies each leaf rule in key-definition order and collects
every issue, tagging it with the field's (dotted) path.  Leaf rules are
`z.string().min(n, msg)` (absent input yields Zod's default "Required"
message; a present value shorter than `n` raw characters yields `msg`) and
`z.date({ required_error })`.  Optional leaves (`z.string().optional()`)
produce no issues and so have no rule here. -/

structure FieldViolation where
  path : String
  message : String
deriving DecidableEq, Repr

inductive Rule where
  | strMin (path msg : String) (minLen : Nat) (get : Candidate → Option String)
  | dateRequired (path msg : String) (get : Candidate → Option Int)

def Rule.path : Rule → String
  | .strMin p _ _ _ => p
  | .dateRequired p _ _ => p

def Rule.check : Rule → Candidate → List FieldViolation
  | .strMin p msg n get, c =>
      match get c with
      | none => [⟨p, "Required"⟩]
      | some s => if s.length < n then [⟨p, msg⟩] else []
  | .dateRequired p msg get, c =>
      match get c with
      | none => [⟨p, msg⟩]
      | some _ => []

/-- Whether the candidate meets the rule (defined directly from the rule's
meaning, independently of `Rule.check`). -/
def Rule.ok : Rule → Candidate → Bool
  | .strMin _ _ n get, c =>
      match get c with
      | none => false
      | some s => n ≤ s.length
  | .dateRequired _ _ get, c => (get c).isSome

def ruleDepotLocation : Rule :=
  .strMin "depotLocation" "Depot location must be at least 2 characters." 2
    (fun c => c.depotLocation)

def rulePolicyStatement : Rule :=
  .strMin "policyStatement" "Policy statement must be at least 10 characters." 10
    (fun c => c.policyStatement)

/-- The leaf rules of `ohsReportSchema`, in the source's key-definition
order (the four optional leaves carry no rule). -/
def ohsReportSchema : List Rule :=
  [ ruleDepotLocation,
    .strMin "reportingPeriod" "Reporting period must be at least 2 characters." 2
      (fun c => c.reportingPeriod),
    .strMin "preparedBy" "Prepared by must be at least 2 characters." 2
      (fun c => c.preparedBy),
    .dateRequired "date" "A date is required." (fun c => c.date),
    .strMin "executiveSummary.purposeOfReport"
      "Provide an overview (at least 10 characters)." 10
      (fun c => c.executiveSummary.purposeOfReport),
    .strMin "executiveSummary.keyHighlights.injuryReduction" "Required." 1
      (fun c => c.executiveSummary.keyHighlights.injuryReduction),
    .strMin "executiveSummary.keyHighlights.safetyTraining" "Required." 1
      (fun c => c.executiveSummary.keyHighlights.safetyTraining),
    .strMin "executiveSummary.keyHighlights.emergencyDrills" "Required." 1
      (fun c => c.executiveSummary.keyHighlights.emergencyDrills),
    .strMin "executiveSummary.keyHighlights.riskAssessmentCompletion" "Required." 1
      (fun c => c.executiveSummary.keyHighlights.riskAssessmentCompletion),
    rulePolicyStatement,
    .strMin "healthAndSafetyPerformance.incidentSummary.totalIncidents" "Required." 1
      (fun c => c.healthAndSafetyPerformance.incidentSummary.totalIncidents),
    .strMin "healthAndSafetyPerformance.incidentSummary.minorInjuries" "Required." 1
      (fun c => c.healthAndSafetyPerformance.incidentSummary.minorInjuries),
    .strMin "healthAndSafetyPerformance.incidentSummary.majorAccidents" "Required." 1
      (fun c => c.healthAndSafetyPerformance.incidentSummary.majorAccidents),
    .strMin "healthAndSafetyPerformance.incidentSummary.ltifr" "Required." 1
      (fun c => c.healthAndSafetyPerformance.incidentSummary.ltifr),
    .strMin "healthAndSafetyPerformance.incidentSummary.trir" "Required." 1
      (fun c => c.healthAndSafetyPerformance.incidentSummary.trir),
    .strMin "safetyTraining.trainingInitiatives.employeesTrained" "Required." 1
      (fun c => c.safetyTraining.trainingInitiatives.employeesTrained),
    .strMin "safetyTraining.trainingInitiatives.topicsCovered" "At least 2 characters." 2
      (fun c => c.safetyTraining.trainingInitiatives.topicsCovered),
    .strMin "safetyTraining.trainingInitiatives.specializedTraining"
      "At least 2 characters." 2
      (fun c => c.safetyTraining.trainingInitiatives.specializedTraining),
    .strMin "safetyTraining.newHireOrientation" "At least 2 characters." 2
      (fun c => c.safetyTraining.newHireOrientation),
    .strMin "safetyTraining.refresherCourses" "At least 2 characters." 2
      (fun c => c.safetyTraining.refresherCourses),
    .strMin "hazardIdentification.riskAssessments.completionRate" "Required." 1
      (fun c => c.hazardIdentification.riskAssessments.completionRate),
    .strMin "hazardIdentification.riskAssessments.methodology" "At least 2 characters." 2
      (fun c => c.hazardIdentification.riskAssessments.methodology),
    .strMin "hazardIdentification.topHazards" "At least 2 characters." 2
      (fun c => c.hazardIdentification.topHazards),
    .strMin "hazardIdentification.controlMeasures" "At least 2 characters." 2
      (fun c => c.hazardIdentification.controlMeasures),
    .strMin "incidentInvestigations.totalInvestigated" "Required." 1
      (fun c => c.incidentInvestigations.totalInvestigated),
    .strMin "incidentInvestigations.rootCauses" "At least 2 characters." 2
      (fun c => c.incidentInvestigations.rootCauses),
    .strMin "incidentInvestigations.correctiveActions" "At least 2 characters." 2
      (fun c => c.incidentInvestigations.correctiveActions),
    .strMin "incidentInvestigations.followUpVerification" "At least 2 characters." 2
      (fun c => c.incidentInvestigations.followUpVerification),
    .strMin "emergencyPreparedness.drills.drillsConducted" "Required." 1
      (fun c => c.emergencyPreparedness.drills.drillsConducted),
    .strMin "emergencyPreparedness.drills.participationRate" "Required." 1
      (fun c => c.emergencyPreparedness.drills.participationRate),
    .strMin "emergencyPreparedness.drills.evacuationSuccessRate" "Required." 1
      (fun c => c.emergencyPreparedness.drills.evacuationSuccessRate),
    .strMin "emergencyPreparedness.firstAidCapabilities"
      "Must be at least 2 characters." 2
      (fun c => c.emergencyPreparedness.firstAidCapabilities),
    .strMin "emergencyPreparedness.emergencyResponsePlans"
      "Must be at least 2 characters." 2
      (fun c => c.emergencyPreparedness.emergencyResponsePlans),
    .strMin "ppeAndEquipment.ppeCompliance.complianceRate" "Required." 1
      (fun c => c.ppeAndEquipment.ppeCompliance.complianceRate),
    .strMin "ppeAndEquipment.ppeCompliance.ppeTypes" "At least 2 characters." 2
      (fun c => c.ppeAndEquipment.ppeCompliance.ppeTypes),
    .strMin "ppeAndEquipment.equipmentInspections" "At least 2 characters." 2
      (fun c => c.ppeAndEquipment.equipmentInspections),
    .strMin "employeeHealth.wellnessInitiatives" "At least 2 characters." 2
      (fun c => c.employeeHealth.wellnessInitiatives),
    .strMin "employeeHealth.campaignsAndAwareness" "At least 2 characters." 2
      (fun c => c.employeeHealth.campaignsAndAwareness),
    .strMin "challenges.keyChallenges" "At least 2 characters." 2
      (fun c => c.challenges.keyChallenges),
    .strMin "challenges.proposedImprovements" "At least 2 characters." 2
      (fun c => c.challenges.proposedImprovements),
    .strMin "recommendations" "At least 2 characters." 2
      (fun c => c.recommendations),
    .strMin "signOff.inspectorName" "Inspector name must be at least 2 characters." 2
      (fun c => c.signOff.inspectorName) ]

/-- Run every schema rule on the candidate and collect all violations, in
schema order (Zod `safeParse` issue collection). -/
def validate (c : Candidate) : List FieldViolation :=
  (ohsReportSchema.map (fun r => r.check c)).flatten

/-- Validation success: zero violations (`safeParse(...).success`). -/
def validateOk (c : Candidate) : Bool :=
  (validate c).isEmpty

/-! ### Concrete candidates used in witnesses and counterexamples -/

/-- Candidate with every leaf filled from four sample values: `pol` for
`policyStatement`, `pur` for `purposeOfReport` (the two min-10 fields), `sN`
for every min-2 field, `s1` for every min-1 field, `d` for the date; the
optional leaves are absent. -/
def mkCandidate (pol pur sN s1 : Option String) (d : Option Int) : Candidate :=
  { depotLocation := sN
    reportingPeriod := sN
    preparedBy := sN
    date := d
    executiveSummary :=
      { purposeOfReport := pur
        keyHighlights :=
          { injuryReduction := s1
            safetyTraining := s1
            emergencyDrills := s1
            riskAssessmentCompletion := s1 } }
    policyStatement := pol
    healthAndSafetyPerformance :=
      { incidentSummary :=
          { totalIncidents := s1
            minorInjuries := s1
            majorAccidents := s1
            ltifr := s1
            trir := s1 }
        yearOnYearComparison := none
        leadingIndicators := none }
    safetyTraining :=
      { trainingInitiatives :=
          { employeesTrained := s1
            topicsCovered := sN
            specializedTraining := sN }
        newHireOrientation := sN
        refresherCourses := sN }
    hazardIdentification :=
      { riskAssessments := { completionRate := s1, methodology := sN }
        topHazards := sN
        controlMeasures := sN }
    incidentInvestigations :=
      { totalInvestigated := s1
        rootCauses := sN
        correctiveActions := sN
        followUpVerification := sN }
    emergencyPreparedness :=
      { drills :=
          { drillsConducted := s1
            participationRate := s1
            evacuationSuccessRate := s1 }
        firstAidCapabilities := sN
        emergencyResponsePlans := sN }
    ppeAndEquipment :=
      { ppeCompliance := { complianceRate := s1, ppeTypes := sN }
        equipmentInspections := sN }
    employeeHealth := { wellnessInitiatives := sN, campaignsAndAwareness := sN }
    challenges := { keyChallenges := sN, proposedImprovements := sN }
    recommendations := sN
    signOff := { inspectorName := sN, inspectorSignature := none }
    appendices := none }

/-- Candidate with every leaf absent. -/
def cNone : Candidate := mkCandidate none none none none none

/-- Candidate meeting every rule except `policyStatement`, which holds a
5-character value. -/
def cPolicy5 : Candidate :=
  mkCandidate (some "abcde") (some "abcdefghij") (some "ab") (some "a") (some 0)

/-- Candidate whose `depotLocation` is two raw space characters and whose
other leaves are absent. -/
def cSpaces : Candidate := { cNone with depotLocation := some "  " }

/-! ## Paginated renderer (embedding of `generatePDF`)

The jsPDF document is modelled as finalized pages (`done`), the current
page's draw instructions (`cur`), the vertical cursor `yPos`, and the
current font style and size (set by `pdf.setFont` / `pdf.setFontSize` and
captured by each `pdf.text` call).  All source constants are in points:
`leftMargin = 40`, `rightMargin = 555`, `lineHeight = 14`, the overflow
threshold `yPos > 760`, the new-page top margin `yPos = 50`, the wrap width
`rightMargin - leftMargin - 20 = 495`, and the indent `leftMargin + 20 =
60`.  `pdf.splitTextToSize` is an external text-measuring capability,
abstracted as a `wrap` function from width and text to wrapped lines. -/

inductive FontStyle where
  | bold
  | normal
  | italic
deriving DecidableEq, Repr

structure DrawInstr where
  x : Nat
  y : Nat
  font : FontStyle
  size : Nat
  text : String
deriving DecidableEq, Repr

@[ext]
structure RState where
  done : List (List DrawInstr)
  cur : List DrawInstr
  yPos : Nat
  font : FontStyle
  size : Nat
deriving DecidableEq, Repr

def setFontStyle (f : FontStyle) (st : RState) : RState := { st with font := f }

def setFontSize (n : Nat) (st : RState) : RState := { st with size := n }

/-- The `yPos += n` statements of the source. -/
def bumpY (n : Nat) (st : RState) : RState := { st with yPos := st.yPos + n }

/-- Operation `pdf.text(t, x, yPos)`: draw `t` at the current cursor with the current
font state. -/
def putText (t : String) (x : Nat) (st : RState) : RState :=
  { st with cur := st.cur ++ [⟨x, st.yPos, st.font, st.size, t⟩] }

/-- Operation `checkForNewPage`: if `yPos > 760`, `pdf.addPage()` (finalize the
current page, start an empty one) and reset the cursor to the top margin. -/
def checkForNewPage (st : RState) : RState :=
  if st.yPos > 760 then { st with done := st.done ++ [st.cur], cur := [], yPos := 50 }
  else st

/-- Operation `addSectionTitle`: bold 14pt text, cursor advanced by `lineHeight * 1.5
= 21`. -/
def addSectionTitle (t : String) (st : RState) : RState :=
  bumpY 21 (putText t 40 (setFontSize 14 (setFontStyle .bold (checkForNewPage st))))

/-- Operation `addSubSectionTitle`: bold 12pt text, cursor advanced by one line. -/
def addSubSectionTitle (t : String) (st : RState) : RState :=
  bumpY 14 (putText t 40 (setFontSize 12 (setFontStyle .bold (checkForNewPage st))))

/-- JavaScript `value || "N/A"` on a `string | undefined` value: `undefined`
and the empty string are falsy. -/
def orNA : Option String → String
  | none => "N/A"
  | some s => if s = "" then "N/A" else s

/-- The wrapped-line loop of `addField`: for each line, advance the cursor,
check for overflow, then draw the line indented at `leftMargin + 20`. -/
def drawLines : List String → RState → RState
  | [], st => st
  | l :: ls, st => drawLines ls (putText l 60 (checkForNewPage (bumpY 14 st)))

/-- Operation `addField(label, value, boldLabel)`: overflow check, label at the left
margin (bold by default), then the wrapped value (or `"N/A"`), one overflow
check per wrapped line, then one trailing line advance. -/
def addField (wrap : Nat → String → List String) (label : String)
    (value : Option String) (boldLabel : Bool) (st : RState) : RState :=
  bumpY 14 (drawLines (wrap 495 (orNA value))
    (setFontStyle .normal
      (putText label 40
        (setFontSize 10
          (setFontStyle (if boldLabel then .bold else .normal)
            (checkForNewPage st))))))

/-- Fresh `new jsPDF(...)` document state: no pages yet, cursor at the top
margin (`yPos = 50`), default helvetica normal 16pt. -/
def initState : RState :=
  { done := [], cur := [], yPos := 50, font := .normal, size := 16 }

/-- The whole-document renderer `generatePDF(report)`, in source order
(title block, header fields, sections 1 through 12, conditional appendix
block, footer).  Call sites passing `x || ""` on a required string leaf are
the identity on strings and appear as the field itself; on optional leaves
they appear as `(· .getD "")`. -/
def generatePDF (wrap : Nat → String → List String) (report : Report) : RState :=
  let st := bumpY 28 (putText "ANNUAL OCCUPATIONAL HEALTH AND SAFETY REPORT" 40
    (setFontSize 16 (setFontStyle .bold initState)))
  let st := addField wrap "Depot Location:" (some report.depotLocation) true st
  let st := addField wrap "Reporting Period:" (some report.reportingPeriod) true st
  let st := addField wrap "Prepared By:" (some report.preparedBy) true st
  let st := addField wrap "Date:" (some report.date) true st
  let st := bumpY 14 st
  let st := addSectionTitle "1. EXECUTIVE SUMMARY" st
  let st := addSubSectionTitle "1.1 Purpose of the Report" st
  let st := addField wrap "Purpose" (some report.executiveSummary.purposeOfReport) false st
  let st := addSubSectionTitle "1.2 Key Highlights" st
  let st := addField wrap "- Reduction in Workplace Injuries"
    (some report.executiveSummary.keyHighlights.injuryReduction) true st
  let st := addField wrap "- Safety Training"
    (some report.executiveSummary.keyHighlights.safetyTraining) true st
  let st := addField wrap "- Emergency Drills"
    (some report.executiveSummary.keyHighlights.emergencyDrills) true st
  let st := addField wrap "- Risk Assessment Completion"
    (some report.executiveSummary.keyHighlights.riskAssessmentCompletion) true st
  let st := addSectionTitle "2. HEALTH AND SAFETY POLICY STATEMENT" st
  let st := addField wrap "Policy Statement" (some report.policyStatement) false st
  let st := addSectionTitle "3. HEALTH AND SAFETY PERFORMANCE INDICATORS" st
  let st := addSubSectionTitle "3.1 Incident Summary" st
  let st := addField wrap "Total Number of Incidents"
    (some report.healthAndSafetyPerformance.incidentSummary.totalIncidents) true st
  let st := addField wrap "Minor Injuries"
    (some report.healthAndSafetyPerformance.incidentSummary.minorInjuries) true st
  let st := addField wrap "Major Accidents/Fatalities"
    (some report.healthAndSafetyPerformance.incidentSummary.majorAccidents) true st
  let st := addField wrap "Lost Time Injury Frequency Rate (LTIFR)"
    (some report.healthAndSafetyPerformance.incidentSummary.ltifr) true st
  let st := addField wrap "Total Recordable Incident Rate (TRIR)"
    (some report.healthAndSafetyPerformance.incidentSummary.trir) true st
  let st := addSubSectionTitle "3.2 Year-on-Year Comparison" st
  let st := addField wrap ""
    (some ((report.healthAndSafetyPerformance.yearOnYearComparison).getD "")) false st
  let st := addSubSectionTitle "3.3 Leading Indicators" st
  let st := addField wrap ""
    (some ((report.healthAndSafetyPerformance.leadingIndicators).getD "")) false st
  let st := addSectionTitle "4. SAFETY TRAINING AND EDUCATION" st
  let st := addSubSectionTitle "4.1 Training Initiatives" st
  let st := addField wrap "Number of Employees Trained"
    (some report.safetyTraining.trainingInitiatives.employeesTrained) true st
  let st := addField wrap "Topics Covered"
    (some report.safetyTraining.trainingInitiatives.topicsCovered) true st
  let st := addField wrap "Specialized Training"
    (some report.safetyTraining.trainingInitiatives.specializedTraining) true st
  let st := addSubSectionTitle "4.2 New Hire Orientation" st
  let st := addField wrap "" (some report.safetyTraining.newHireOrientation) false st
  let st := addSubSectionTitle "4.3 Refresher Courses" st
  let st := addField wrap "" (some report.safetyTraining.refresherCourses) false st
  let st := addSectionTitle "5. HAZARD IDENTIFICATION AND RISK ASSESSMENT" st
  let st := addSubSectionTitle "5.1 Risk Assessments" st
  let st := addField wrap "Completion Rate"
    (some report.hazardIdentification.riskAssessments.completionRate) true st
  let st := addField wrap "Methodology Used"
    (some report.hazardIdentification.riskAssessments.methodology) true st
  let st := addSubSectionTitle "5.2 Top Hazards Identified" st
  let st := addField wrap "" (some report.hazardIdentification.topHazards) false st
  let st := addSubSectionTitle "5.3 Control Measures Implemented" st
  let st := addField wrap "" (some report.hazardIdentification.controlMeasures) false st
  let st := addSectionTitle "6. INCIDENT INVESTIGATIONS AND CORRECTIVE ACTIONS" st
  let st := addField wrap "Total Incidents Investigated"
    (some report.incidentInvestigations.totalInvestigated) true st
  let st := addField wrap "Root Causes Identified"
    (some report.incidentInvestigations.rootCauses) true st
  let st := addField wrap "Corrective Actions Taken"
    (some report.incidentInvestigations.correctiveActions) true st
  let st := addField wrap "Follow-Up and Verification"
    (some report.incidentInvestigations.followUpVerification) true st
  let st := addSectionTitle "7. EMERGENCY PREPAREDNESS" st
  let st := addSubSectionTitle "7.1 Emergency Drills" st
  let st := addField wrap "Drills Conducted"
    (some report.emergencyPreparedness.drills.drillsConducted) true st
  let st := addField wrap "Participation Rate"
    (some report.emergencyPreparedness.drills.participationRate) true st
  let st := addField wrap "Evacuation Success Rate"
    (some report.emergencyPreparedness.drills.evacuationSuccessRate) true st
  let st := addSubSectionTitle "7.2 First Aid and Response Capabilities" st
  let st := addField wrap "" (some report.emergencyPreparedness.firstAidCapabilities) false st
  let st := addSubSectionTitle "7.3 Emergency Response Plans" st
  let st := addField wrap "" (some report.emergencyPreparedness.emergencyResponsePlans) false st
  let st := addSectionTitle "8. PPE AND EQUIPMENT MANAGEMENT" st
  let st := addSubSectionTitle "8.1 PPE Compliance" st
  let st := addField wrap "Compliance Rate"
    (some report.ppeAndEquipment.ppeCompliance.complianceRate) true st
  let st := addField wrap "Types of PPE Issued"
    (some report.ppeAndEquipment.ppeCompliance.ppeTypes) true st
  let st := addSubSectionTitle "8.2 Equipment Inspections" st
  let st := addField wrap "" (some report.ppeAndEquipment.equipmentInspections) false st
  let st := addSectionTitle "9. EMPLOYEE HEALTH AND WELLNESS PROGRAMS" st
  let st := addField wrap "9.1 Wellness Initiatives"
    (some report.employeeHealth.wellnessInitiatives) true st
  let st := addField wrap "9.2 Campaigns and Awareness"
    (some report.employeeHealth.campaignsAndAwareness) true st
  let st := addSectionTitle "10. CHALLENGES AND AREAS FOR IMPROVEMENT" st
  let st := addField wrap "10.1 Key Challenges" (some report.challenges.keyChallenges) true st
  let st := addField wrap "10.2 Proposed Improvements"
    (some report.challenges.proposedImprovements) true st
  let st := addSectionTitle "11. RECOMMENDATIONS" st
  let st := addField wrap "" (some report.recommendations) false st
  let st := addSectionTitle "12. SIGN-OFF AND COMPLIANCE STATEMENT" st
  let st := addField wrap "Inspector Name:" (some report.signOff.inspectorName) true st
  let st := addField wrap "Inspector Signature:" report.signOff.inspectorSignature true st
  let st :=
    match report.appendices with
    | some s =>
        if s = "" then st
        else addField wrap "" (some s) false
          (addSectionTitle "Additional Notes / Appendices" st)
    | none => st
  let st := checkForNewPage st
  let st := putText "End of Report" 40 (bumpY 10 (setFontSize 10 (setFontStyle .italic st)))
  st

/-- The finished document: finalized pages followed by the current page. -/
def pagesOf (st : RState) : List (List DrawInstr) := st.done ++ [st.cur]

/-- Contract `render(report)`: the ordered sequence of pages. -/
def renderPages (wrap : Nat → String → List String) (r : Report) :
    List (List DrawInstr) :=
  pagesOf (generatePDF wrap r)

/-! ### Derived views of the rendered document -/

/-- Projection of a draw instruction to its text, font style and size. -/
abbrev Entry := String × FontStyle × Nat

def proj (d : DrawInstr) : Entry := (d.text, d.font, d.size)

/-- All draw instructions of the document in emission order (pages
concatenated), projected to text, font and size.  This projection is
independent of the cursor and of pagination. -/
def emitted (st : RState) : List Entry := (pagesOf st).flatten.map proj

/-- The entries one `addField` call contributes: the label at the current
font weight, then each wrapped line of the (defaulted) value in normal
10pt. -/
def fieldEntries (wrap : Nat → String → List String) (label : String)
    (value : Option String) (boldLabel : Bool) : List Entry :=
  (label, if boldLabel then FontStyle.bold else FontStyle.normal, 10)
    :: (wrap 495 (orNA value)).map (fun s => (s, FontStyle.normal, 10))

/-- Whether the source emits the appendix block: `if (report.appendices)`,
true only for a present, non-empty value. -/
def appendixShown (r : Report) : Bool :=
  match r.appendices with
  | some s => s != ""
  | none => false

/-- The emission blocks of the whole document, in order (proved equal to
the instruction stream of `generatePDF` in `generatePDF_emitted`). -/
def docBlocks (w : Nat → String → List String) (r : Report) : List (List Entry) :=
  [ [("ANNUAL OCCUPATIONAL HEALTH AND SAFETY REPORT", FontStyle.bold, 16)],
    fieldEntries w "Depot Location:" (some r.depotLocation) true,
    fieldEntries w "Reporting Period:" (some r.reportingPeriod) true,
    fieldEntries w "Prepared By:" (some r.preparedBy) true,
    fieldEntries w "Date:" (some r.date) true,
    [("1. EXECUTIVE SUMMARY", FontStyle.bold, 14)],
    [("1.1 Purpose of the Report", FontStyle.bold, 12)],
    fieldEntries w "Purpose" (some r.executiveSummary.purposeOfReport) false,
    [("1.2 Key Highlights", FontStyle.bold, 12)],
    fieldEntries w "- Reduction in Workplace Injuries"
      (some r.executiveSummary.keyHighlights.injuryReduction) true,
    fieldEntries w "- Safety Training"
      (some r.executiveSummary.keyHighlights.safetyTraining) true,
    fieldEntries w "- Emergency Drills"
      (some r.executiveSummary.keyHighlights.emergencyDrills) true,
    fieldEntries w "- Risk Assessment Completion"
      (some r.executiveSummary.keyHighlights.riskAssessmentCompletion) true,
    [("2. HEALTH AND SAFETY POLICY STATEMENT", FontStyle.bold, 14)],
    fieldEntries w "Policy Statement" (some r.policyStatement) false,
    [("3. HEALTH AND SAFETY PERFORMANCE INDICATORS", FontStyle.bold, 14)],
    [("3.1 Incident Summary", FontStyle.bold, 12)],
    fieldEntries w "Total Number of Incidents"
      (some r.healthAndSafetyPerformance.incidentSummary.totalIncidents) true,
    fieldEntries w "Minor Injuries"
      (some r.healthAndSafetyPerformance.incidentSummary.minorInjuries) true,
    fieldEntries w "Major Accidents/Fatalities"
      (some r.healthAndSafetyPerformance.incidentSummary.majorAccidents) true,
    fieldEntries w "Lost Time Injury Frequency Rate (LTIFR)"
      (some r.healthAndSafetyPerformance.incidentSummary.ltifr) true,
    fieldEntries w "Total Recordable Incident Rate (TRIR)"
      (some r.healthAndSafetyPerformance.incidentSummary.trir) true,
    [("3.2 Year-on-Year Comparison", FontStyle.bold, 12)],
    fieldEntries w ""
      (some ((r.healthAndSafetyPerformance.yearOnYearComparison).getD "")) false,
    [("3.3 Leading Indicators", FontStyle.bold, 12)],
    fieldEntries w ""
      (some ((r.healthAndSafetyPerformance.leadingIndicators).getD "")) false,
    [("4. SAFETY TRAINING AND EDUCATION", FontStyle.bold, 14)],
    [("4.1 Training Initiatives", FontStyle.bold, 12)],
    fieldEntries w "Number of Employees Trained"
      (some r.safetyTraining.trainingInitiatives.employeesTrained) true,
    fieldEntries w "Topics Covered"
      (some r.safetyTraining.trainingInitiatives.topicsCovered) true,
    fieldEntries w "Specialized Training"
      (some r.safetyTraining.trainingInitiatives.specializedTraining) true,
    [("4.2 New Hire Orientation", FontStyle.bold, 12)],
    fieldEntries w "" (some r.safetyTraining.newHireOrientation) false,
    [("4.3 Refresher Courses", FontStyle.bold, 12)],
    fieldEntries w "" (some r.safetyTraining.refresherCourses) false,
    [("5. HAZARD IDENTIFICATION AND RISK ASSESSMENT", FontStyle.bold, 14)],
    [("5.1 Risk Assessments", FontStyle.bold, 12)],
    fieldEntries w "Completion Rate"
      (some r.hazardIdentification.riskAssessments.completionRate) true,
    fieldEntries w "Methodology Used"
      (some r.hazardIdentification.riskAssessments.methodology) true,
    [("5.2 Top Hazards Identified", FontStyle.bold, 12)],
    fieldEntries w "" (some r.hazardIdentification.topHazards) false,
    [("5.3 Control Measures Implemented", FontStyle.bold, 12)],
    fieldEntries w "" (some r.hazardIdentification.controlMeasures) false,
    [("6. INCIDENT INVESTIGATIONS AND CORRECTIVE ACTIONS", FontStyle.bold, 14)],
    fieldEntries w "Total Incidents Investigated"
      (some r.incidentInvestigations.totalInvestigated) true,
    fieldEntries w "Root Causes Identified"
      (some r.incidentInvestigations.rootCauses) true,
    fieldEntries w "Corrective Actions Taken"
      (some r.incidentInvestigations.correctiveActions) true,
    fieldEntries w "Follow-Up and Verification"
      (some r.incidentInvestigations.followUpVerification) true,
    [("7. EMERGENCY PREPAREDNESS", FontStyle.bold, 14)],
    [("7.1 Emergency Drills", FontStyle.bold, 12)],
    fieldEntries w "Drills Conducted"
      (some r.emergencyPreparedness.drills.drillsConducted) true,
    fieldEntries w "Participation Rate"
      (some r.emergencyPreparedness.drills.participationRate) true,
    fieldEntries w "Evacuation Success Rate"
      (some r.emergencyPreparedness.drills.evacuationSuccessRate) true,
    [("7.2 First Aid and Response Capabilities", FontStyle.bold, 12)],
    fieldEntries w "" (some r.emergencyPreparedness.firstAidCapabilities) false,
    [("7.3 Emergency Response Plans", FontStyle.bold, 12)],
    fieldEntries w "" (some r.emergencyPreparedness.emergencyResponsePlans) false,
    [("8. PPE AND EQUIPMENT MANAGEMENT", FontStyle.bold, 14)],
    [("8.1 PPE Compliance", FontStyle.bold, 12)],
    fieldEntries w "Compliance Rate"
      (some r.ppeAndEquipment.ppeCompliance.complianceRate) true,
    fieldEntries w "Types of PPE Issued"
      (some r.ppeAndEquipment.ppeCompliance.ppeTypes) true,
    [("8.2 Equipment Inspections", FontStyle.bold, 12)],
    fieldEntries w "" (some r.ppeAndEquipment.equipmentInspections) false,
    [("9. EMPLOYEE HEALTH AND WELLNESS PROGRAMS", FontStyle.bold, 14)],
    fieldEntries w "9.1 Wellness Initiatives"
      (some r.employeeHealth.wellnessInitiatives) true,
    fieldEntries w "9.2 Campaigns and Awareness"
      (some r.employeeHealth.campaignsAndAwareness) true,
    [("10. CHALLENGES AND AREAS FOR IMPROVEMENT", FontStyle.bold, 14)],
    fieldEntries w "10.1 Key Challenges" (some r.challenges.keyChallenges) true,
    fieldEntries w "10.2 Proposed Improvements"
      (some r.challenges.proposedImprovements) true,
    [("11. RECOMMENDATIONS", FontStyle.bold, 14)],
    fieldEntries w "" (some r.recommendations) false,
    [("12. SIGN-OFF AND COMPLIANCE STATEMENT", FontStyle.bold, 14)],
    fieldEntries w "Inspector Name:" (some r.signOff.inspectorName) true,
    fieldEntries w "Inspector Signature:" r.signOff.inspectorSignature true ]
  ++ (match r.appendices with
      | some s =>
          if s = "" then []
          else [[("Additional Notes / Appendices", FontStyle.bold, 14)],
                fieldEntries w "" (some s) false]
      | none => [])
  ++ [[("End of Report", FontStyle.italic, 10)]]

/-- The document's heading entries (everything drawn at 12pt or larger):
the title and the section and subsection headings. -/
def sectionHeadings (w : Nat → String → List String) (r : Report) : List Entry :=
  (emitted (generatePDF w r)).filter (fun e => decide (12 ≤ e.2.2))

/-- The fixed heading skeleton of every rendered document (the appendix
heading, when shown, follows it). -/
def fixedHeadings : List Entry :=
  [ ("ANNUAL OCCUPATIONAL HEALTH AND SAFETY REPORT", FontStyle.bold, 16),
    ("1. EXECUTIVE SUMMARY", FontStyle.bold, 14),
    ("1.1 Purpose of the Report", FontStyle.bold, 12),
    ("1.2 Key Highlights", FontStyle.bold, 12),
    ("2. HEALTH AND SAFETY POLICY STATEMENT", FontStyle.bold, 14),
    ("3. HEALTH AND SAFETY PERFORMANCE INDICATORS", FontStyle.bold, 14),
    ("3.1 Incident Summary", FontStyle.bold, 12),
    ("3.2 Year-on-Year Comparison", FontStyle.bold, 12),
    ("3.3 Leading Indicators", FontStyle.bold, 12),
    ("4. SAFETY TRAINING AND EDUCATION", FontStyle.bold, 14),
    ("4.1 Training Initiatives", FontStyle.bold, 12),
    ("4.2 New Hire Orientation", FontStyle.bold, 12),
    ("4.3 Refresher Courses", FontStyle.bold, 12),
    ("5. HAZARD IDENTIFICATION AND RISK ASSESSMENT", FontStyle.bold, 14),
    ("5.1 Risk Assessments", FontStyle.bold, 12),
    ("5.2 Top Hazards Identified", FontStyle.bold, 12),
    ("5.3 Control Measures Implemented", FontStyle.bold, 12),
    ("6. INCIDENT INVESTIGATIONS AND CORRECTIVE ACTIONS", FontStyle.bold, 14),
    ("7. EMERGENCY PREPAREDNESS", FontStyle.bold, 14),
    ("7.1 Emergency Drills", FontStyle.bold, 12),
    ("7.2 First Aid and Response Capabilities", FontStyle.bold, 12),
    ("7.3 Emergency Response Plans", FontStyle.bold, 12),
    ("8. PPE AND EQUIPMENT MANAGEMENT", FontStyle.bold, 14),
    ("8.1 PPE Compliance", FontStyle.bold, 12),
    ("8.2 Equipment Inspections", FontStyle.bold, 12),
    ("9. EMPLOYEE HEALTH AND WELLNESS PROGRAMS", FontStyle.bold, 14),
    ("10. CHALLENGES AND AREAS FOR IMPROVEMENT", FontStyle.bold, 14),
    ("11. RECOMMENDATIONS", FontStyle.bold, 14),
    ("12. SIGN-OFF AND COMPLIANCE STATEMENT", FontStyle.bold, 14) ]

/-- The title and the four header-field labels, followed by section 1's
heading: the fixed start of every rendered document. -/
def headerSkeleton : List Entry :=
  [ ("ANNUAL OCCUPATIONAL HEALTH AND SAFETY REPORT", FontStyle.bold, 16),
    ("Depot Location:", FontStyle.bold, 10),
    ("Reporting Period:", FontStyle.bold, 10),
    ("Prepared By:", FontStyle.bold, 10),
    ("Date:", FontStyle.bold, 10),
    ("1. EXECUTIVE SUMMARY", FontStyle.bold, 14) ]

/-- The draw instructions of an unbroken run of wrapped lines starting just
below cursor position `y`. -/
def lineRun (y : Nat) : List String → List DrawInstr
  | [] => []
  | l :: ls => ⟨60, y + 14, .normal, 10, l⟩ :: lineRun (y + 14) ls

/-! ### Concrete wrap functions and reports for witnesses -/

/-- Degenerate wrap capability: every text fits on one line. -/
def wrapOne : Nat → String → List String := fun _ s => [s]

/-- Wrap capability returning two fixed lines, used to exercise a mid-field
page split. -/
def wrapTwoLines : Nat → String → List String := fun _ _ => ["line one", "line two"]

/-- A renderer state near the bottom threshold, used to exercise a
mid-field page split. -/
def stC1 : RState :=
  { done := [], cur := [], yPos := 740, font := .normal, size := 10 }

/-- A validated report with the four optional leaves as given and every
required leaf a short concrete string. -/
def mkReport (yoy lead sig app : Option String) : Report :=
  { depotLocation := "Pinetown"
    reportingPeriod := "2024"
    preparedBy := "J. Smith"
    date := "1/1/2024"
    executiveSummary :=
      { purposeOfReport := "abcdefghij"
        keyHighlights :=
          { injuryReduction := "ab"
            safetyTraining := "ab"
            emergencyDrills := "ab"
            riskAssessmentCompletion := "ab" } }
    policyStatement := "abcdefghij"
    healthAndSafetyPerformance :=
      { incidentSummary :=
          { totalIncidents := "ab"
            minorInjuries := "ab"
            majorAccidents := "ab"
            ltifr := "ab"
            trir := "ab" }
        yearOnYearComparison := yoy
        leadingIndicators := lead }
    safetyTraining :=
      { trainingInitiatives :=
          { employeesTrained := "ab"
            topicsCovered := "ab"
            specializedTraining := "ab" }
        newHireOrientation := "ab"
        refresherCourses := "ab" }
    hazardIdentification :=
      { riskAssessments := { completionRate := "ab", methodology := "ab" }
        topHazards := "ab"
        controlMeasures := "ab" }
    incidentInvestigations :=
      { totalInvestigated := "ab"
        rootCauses := "ab"
        correctiveActions := "ab"
        followUpVerification := "ab" }
    emergencyPreparedness :=
      { drills :=
          { drillsConducted := "ab"
            participationRate := "ab"
            evacuationSuccessRate := "ab" }
        firstAidCapabilities := "ab"
        emergencyResponsePlans := "ab" }
    ppeAndEquipment :=
      { ppeCompliance := { complianceRate := "ab", ppeTypes := "ab" }
        equipmentInspections := "ab" }
    employeeHealth := { wellnessInitiatives := "ab", campaignsAndAwareness := "ab" }
    challenges := { keyChallenges := "ab", proposedImprovements := "ab" }
    recommendations := "ab"
    signOff := { inspectorName := "ab", inspectorSignature := sig }
    appendices := app }

/-- Report with every optional leaf present and non-empty. -/
def rFull : Report := mkReport (some "ab") (some "ab") (some "ab") (some "ab")

/-- Report whose `appendices` leaf is present but empty. -/
def rEmptyApp : Report := mkReport (some "ab") (some "ab") (some "ab") (some "")

/-- Report whose `appendices` leaf is absent (every other optional leaf is
present and non-empty, so no field value defaults to the placeholder). -/
def rNoApp : Report := mkReport (some "ab") (some "ab") (some "ab") none

/-- Report whose three labeled optional leaves are absent. -/
def rNoOpt : Report := mkReport none none none (some "ab")

/-- Report in which only `leadingIndicators` is absent. -/
def rNoLead : Report := mkReport (some "ab") none (some "ab") (some "ab")

/-- Report in which only `inspectorSignature` is absent. -/
def rNoSig : Report := mkReport (some "ab") (some "ab") none (some "ab")

/-! ## Storage actions (embedding of `app/actions.ts`)

The persisted collection is the JSON array stored under the `ohs_reports`
cookie: a list of records `{ id, ...fields }`.  The non-`id` fields are
abstracted as a type parameter `α`; the edit payload is the full set of
non-`id` form values (the caller's `OHSReportFormValues` carries no `id`),
so the object spread `{ ...report, ...data }` keeps `report.id` and
replaces the data fields. -/

structure StoredReport (α : Type) where
  id : String
  data : α
deriving DecidableEq, Repr

/-- The `{ success: boolean }` part of the action result. -/
structure ActionResult where
  success : Bool
deriving DecidableEq, Repr

/-- Action `editReport(id, data)`: map over the stored collection, merging the
payload into the record whose `id` matches; returns the updated collection
and `{ success: true }`. -/
def editReport {α : Type} (reports : List (StoredReport α)) (id : String) (d : α) :
    List (StoredReport α) × ActionResult :=
  (reports.map (fun r => if r.id = id then ⟨r.id, d⟩ else r), ⟨true⟩)

/-- Action `deleteReport(id)`: filter the stored collection, keeping records whose
`id` differs; returns the updated collection and `{ success: true }`
(unconditionally). -/
def deleteReport {α : Type} (reports : List (StoredReport α)) (id : String) :
    List (StoredReport α) × ActionResult :=
  (reports.filter (fun r => r.id != id), ⟨true⟩)

/-- Concrete one-element stored collection for counterexamples. -/
def storeOne : List (StoredReport Nat) := [⟨"1", 0⟩]

/-- Concrete two-element stored collection for witnesses. -/
def storeTwo : List (StoredReport Nat) := [⟨"1", 0⟩, ⟨"2", 5⟩]

/-! ### Validator lemmas -/

lemma check_path_eq (r : Rule) (c : Candidate) : ∀ v ∈ r.check c, v.path = r.path := by
  cases r with
  | strMin p m n g =>
    intro v hv
    cases hg : g c with
    | none => simp [Rule.check, hg] at hv; rw [hv]; rfl
    | some s =>
      by_cases hl : s.length < n
      · simp [Rule.check, hg, hl] at hv; rw [hv]; rfl
      · simp [Rule.check, hg, hl] at hv
  | dateRequired p m g =>
    intro v hv
    cases hg : g c with
    | none => simp [Rule.check, hg] at hv; rw [hv]; rfl
    | some d => simp [Rule.check, hg] at hv

lemma check_eq_nil_of_ok (r : Rule) (c : Candidate) (h : r.ok c = true) :
    r.check c = [] := by
  cases r with
  | strMin p m n g =>
    cases hg : g c with
    | none => simp [Rule.ok, hg] at h
    | some s =>
      simp only [Rule.ok, hg, decide_eq_true_eq] at h
      simp [Rule.check, hg, Nat.not_lt.mpr h]
  | dateRequired p m g =>
    cases hg : g c with
    | none => simp [Rule.ok, hg] at h
    | some d => simp [Rule.check, hg]

lemma check_length_of_not_ok (r : Rule) (c : Candidate) (h : r.ok c = false) :
    (r.check c).length = 1 := by
  cases r with
  | strMin p m n g =>
    cases hg : g c with
    | none => simp [Rule.check, hg]
    | some s =>
      simp only [Rule.ok, hg, decide_eq_false_iff_not, Nat.not_le] at h
      simp [Rule.check, hg, h]
  | dateRequired p m g =>
    cases hg : g c with
    | none => simp [Rule.check, hg]
    | some d => simp [Rule.ok, hg] at h

lemma check_filter_self (r : Rule) (c : Candidate) :
    (r.check c).filter (fun v => v.path == r.path) = r.check c := by
  apply List.filter_eq_self.mpr
  intro v hv
  simp [check_path_eq r c v hv]

lemma check_filter_ne (r : Rule) (c : Candidate) (q : String) (h : q ≠ r.path) :
    (r.check c).filter (fun v => v.path == q) = [] := by
  apply List.filter_eq_nil_iff.mpr
  intro v hv
  simp [check_path_eq r c v hv]
  exact fun hc => absurd hc.symm h

lemma flatten_filter_not_mem (rules : List Rule) (c : Candidate) (p : String)
    (h : p ∉ rules.map Rule.path) :
    (((rules.map (fun r => r.check c)).flatten).filter (fun v => v.path == p)) = [] := by
  induction rules with
  | nil => rfl
  | cons q qs ih =>
    simp only [List.map_cons, List.flatten_cons, List.filter_append]
    rw [check_filter_ne q c p (by simp at h; exact fun hc => absurd hc h.1)]
    rw [ih (by simp at h ⊢; exact h.2)]
    rfl

lemma flatten_filter_mem (rules : List Rule) (c : Candidate) (r : Rule)
    (hr : r ∈ rules) (hnd : (rules.map Rule.path).Nodup) :
    (((rules.map (fun q => q.check c)).flatten).filter (fun v => v.path == r.path))
      = r.check c := by
  induction rules with
  | nil => exact absurd hr (List.not_mem_nil r)
  | cons q qs ih =>
    simp only [List.map_cons, List.flatten_cons, List.filter_append]
    rw [List.map_cons, List.nodup_cons] at hnd
    rcases List.mem_cons.mp hr with hq | hrs
    · rw [hq]
      rw [check_filter_self q c]
      rw [flatten_filter_not_mem qs c q.path hnd.1]
      simp
    · have hne : r.path ≠ q.path := by
        intro hc
        exact hnd.1 (hc ▸ List.mem_map_of_mem Rule.path hrs)
      rw [check_filter_ne q c r.path hne]
      rw [ih hrs hnd.2]
      simp

lemma schemaPaths_nodup : (ohsReportSchema.map Rule.path).Nodup := by decide

lemma flatten_checks_of_ok (rules : List Rule) (c : Candidate) (p : String)
    (hok : ∀ r ∈ rules, r.path ≠ p → r.ok c = true) :
    (rules.map (fun r => r.check c)).flatten
      = ((rules.filter (fun r => r.path == p)).map (fun r => r.check c)).flatten := by
  induction rules with
  | nil => rfl
  | cons q qs ih =>
    have ih' := ih (fun r hr => hok r (List.mem_cons_of_mem q hr))
    by_cases hq : q.path = p
    · simp only [List.map_cons, List.flatten_cons, List.filter_cons]
      simp [hq, ih']
    · have hnil : q.check c = [] :=
        check_eq_nil_of_ok q c (hok q (List.mem_cons_self q qs) hq)
      simp only [List.map_cons, List.flatten_cons, List.filter_cons]
      simp [hq, hnil, ih']

lemma schema_filter_policy :
    ohsReportSchema.filter (fun r => r.path == "policyStatement")
      = [rulePolicyStatement] := by rfl

/-! ### Claims about the validator -/

/-- C2: for every candidate, every schema rule that is unmet contributes
exactly one violation to `validate`'s output, carrying that rule's dotted
path (the violations at that path are exactly the rule's own check output, a
single path-and-message record), and `validate` never reports success while
any rule is unmet. -/
theorem validate_reports_every_unmet_rule (c : Candidate) (r : Rule)
    (hr : r ∈ ohsReportSchema) (hno : r.ok c = false) :
    (validate c).filter (fun v => v.path == r.path) = r.check c ∧
    (r.check c).length = 1 ∧
    validateOk c = false := by
  have hfilter := flatten_filter_mem ohsReportSchema c r hr schemaPaths_nodup
  have hlen := check_length_of_not_ok r c hno
  refine ⟨hfilter, hlen, ?_⟩
  have h2 : (validate c).filter (fun v => v.path == r.path) = r.check c := hfilter
  unfold validateOk
  rw [List.isEmpty_eq_false]
  intro hnil
  rw [hnil, List.filter_nil] at h2
  rw [← h2] at hlen
  simp at hlen

/-- Witness for C2: the all-absent candidate misses the depot-location rule,
and `validate` reports it. -/
theorem validate_reports_every_unmet_rule_witness :
    (ruleDepotLocation ∈ ohsReportSchema ∧ ruleDepotLocation.ok cNone = false) ∧
    ((validate cNone).filter (fun v => v.path == ruleDepotLocation.path)
        = ruleDepotLocation.check cNone ∧
      (ruleDepotLocation.check cNone).length = 1 ∧
      validateOk cNone = false) := by
  refine ⟨⟨?_, rfl⟩, validate_reports_every_unmet_rule cNone ruleDepotLocation ?_ rfl⟩
  · unfold ohsReportSchema; exact List.mem_cons_self _ _
  · unfold ohsReportSchema; exact List.mem_cons_self _ _

/-- C5: every minimum-length rule of the schema counts raw characters: a
field whose value consists only of whitespace characters, of length at least
the rule's minimum, satisfies the rule (it is treated as present and yields
no violation; the value is not trimmed before measuring). -/
theorem minLength_counts_raw_whitespace
    (p m : String) (n : Nat) (g : Candidate → Option String)
    (c : Candidate) (s : String)
    (_hmem : Rule.strMin p m n g ∈ ohsReportSchema)
    (hval : g c = some s)
    (_hws : s.data.all Char.isWhitespace = true)
    (hlen : n ≤ s.length) :
    (Rule.strMin p m n g).ok c = true ∧ (Rule.strMin p m n g).check c = [] := by
  constructor
  · simp [Rule.ok, hval, hlen]
  · simp [Rule.check, hval, Nat.not_lt.mpr hlen]

/-- Witness for C5: the depot-location rule (minimum 2) accepts a value of
two raw spaces. -/
theorem minLength_counts_raw_whitespace_witness :
    ((Rule.strMin "depotLocation" "Depot location must be at least 2 characters." 2
        (fun c => c.depotLocation)) ∈ ohsReportSchema ∧
      cSpaces.depotLocation = some "  " ∧
      "  ".data.all Char.isWhitespace = true ∧
      2 ≤ "  ".length) ∧
    ((Rule.strMin "depotLocation" "Depot location must be at least 2 characters." 2
        (fun c => c.depotLocation)).ok cSpaces = true ∧
      (Rule.strMin "depotLocation" "Depot location must be at least 2 characters." 2
        (fun c => c.depotLocation)).check cSpaces = []) := by
  refine ⟨⟨?_, rfl, by decide, by decide⟩,
    minLength_counts_raw_whitespace _ _ _ _ cSpaces "  " ?_ rfl (by decide) (by decide)⟩
  · unfold ohsReportSchema; exact List.mem_cons_self _ _
  · unfold ohsReportSchema; exact List.mem_cons_self _ _

/-- C6: a candidate meeting every schema rule except `policyStatement`,
whose value is 5 characters (below the 10-character minimum), validates to
exactly one violation, at path `policyStatement` and with that rule's
message.  (`validate` is a pure function: the candidate itself is not
modified.) -/
theorem validate_policy_short (c : Candidate) (s : String)
    (hok : ∀ r ∈ ohsReportSchema, r.path ≠ "policyStatement" → r.ok c = true)
    (hpol : c.policyStatement = some s)
    (hlen : s.length = 5) :
    validate c
      = [⟨"policyStatement", "Policy statement must be at least 10 characters."⟩] := by
  unfold validate
  rw [flatten_checks_of_ok ohsReportSchema c "policyStatement" hok]
  rw [schema_filter_policy]
  simp [rulePolicyStatement, Rule.check, hpol, hlen]

/-- Witness for C6: a concrete candidate meeting every rule except a
5-character `policyStatement`. -/
theorem validate_policy_short_witness :
    ((∀ r ∈ ohsReportSchema, r.path ≠ "policyStatement" → r.ok cPolicy5 = true) ∧
      cPolicy5.policyStatement = some "abcde" ∧ "abcde".length = 5) ∧
    validate cPolicy5
      = [⟨"policyStatement", "Policy statement must be at least 10 characters."⟩] :=
  ⟨⟨by decide, rfl, by decide⟩,
    validate_policy_short cPolicy5 "abcde" (by decide) rfl (by decide)⟩

/-! ### Renderer lemmas -/

@[simp] lemma setFontStyle_font (f : FontStyle) (st : RState) :
    (setFontStyle f st).font = f := rfl

@[simp] lemma setFontStyle_size (f : FontStyle) (st : RState) :
    (setFontStyle f st).size = st.size := rfl

@[simp] lemma setFontStyle_yPos (f : FontStyle) (st : RState) :
    (setFontStyle f st).yPos = st.yPos := rfl

@[simp] lemma setFontSize_font (n : Nat) (st : RState) :
    (setFontSize n st).font = st.font := rfl

@[simp] lemma setFontSize_size (n : Nat) (st : RState) :
    (setFontSize n st).size = n := rfl

@[simp] lemma setFontSize_yPos (n : Nat) (st : RState) :
    (setFontSize n st).yPos = st.yPos := rfl

@[simp] lemma bumpY_font (n : Nat) (st : RState) : (bumpY n st).font = st.font := rfl

@[simp] lemma bumpY_size (n : Nat) (st : RState) : (bumpY n st).size = st.size := rfl

@[simp] lemma bumpY_yPos (n : Nat) (st : RState) : (bumpY n st).yPos = st.yPos + n := rfl

@[simp] lemma putText_font (t : String) (x : Nat) (st : RState) :
    (putText t x st).font = st.font := rfl

@[simp] lemma putText_size (t : String) (x : Nat) (st : RState) :
    (putText t x st).size = st.size := rfl

@[simp] lemma putText_yPos (t : String) (x : Nat) (st : RState) :
    (putText t x st).yPos = st.yPos := rfl

@[simp] lemma setFontStyle_done (f : FontStyle) (st : RState) :
    (setFontStyle f st).done = st.done := rfl

@[simp] lemma setFontStyle_cur (f : FontStyle) (st : RState) :
    (setFontStyle f st).cur = st.cur := rfl

@[simp] lemma setFontSize_done (n : Nat) (st : RState) :
    (setFontSize n st).done = st.done := rfl

@[simp] lemma setFontSize_cur (n : Nat) (st : RState) :
    (setFontSize n st).cur = st.cur := rfl

@[simp] lemma bumpY_done (n : Nat) (st : RState) : (bumpY n st).done = st.done := rfl

@[simp] lemma bumpY_cur (n : Nat) (st : RState) : (bumpY n st).cur = st.cur := rfl

@[simp] lemma putText_done (t : String) (x : Nat) (st : RState) :
    (putText t x st).done = st.done := rfl

@[simp] lemma putText_cur (t : String) (x : Nat) (st : RState) :
    (putText t x st).cur = st.cur ++ [⟨x, st.yPos, st.font, st.size, t⟩] := rfl

@[simp] lemma checkForNewPage_font (st : RState) :
    (checkForNewPage st).font = st.font := by
  unfold checkForNewPage; split <;> rfl

@[simp] lemma checkForNewPage_size (st : RState) :
    (checkForNewPage st).size = st.size := by
  unfold checkForNewPage; split <;> rfl

@[simp] lemma emitted_initState : emitted initState = [] := rfl

@[simp] lemma emitted_setFontStyle (f : FontStyle) (st : RState) :
    emitted (setFontStyle f st) = emitted st := rfl

@[simp] lemma emitted_setFontSize (n : Nat) (st : RState) :
    emitted (setFontSize n st) = emitted st := rfl

@[simp] lemma emitted_bumpY (n : Nat) (st : RState) :
    emitted (bumpY n st) = emitted st := rfl

@[simp] lemma emitted_putText (t : String) (x : Nat) (st : RState) :
    emitted (putText t x st) = emitted st ++ [(t, st.font, st.size)] := by
  simp [emitted, pagesOf, putText, proj]

@[simp] lemma emitted_checkForNewPage (st : RState) :
    emitted (checkForNewPage st) = emitted st := by
  unfold checkForNewPage
  split
  · simp [emitted, pagesOf]
  · rfl

lemma emitted_drawLines (ls : List String) (st : RState) :
    emitted (drawLines ls st)
      = emitted st ++ ls.map (fun t => (t, st.font, st.size)) := by
  induction ls generalizing st with
  | nil => simp [drawLines]
  | cons l ls ih => simp [drawLines, ih, List.append_assoc]

@[simp] lemma emitted_addSectionTitle (t : String) (st : RState) :
    emitted (addSectionTitle t st) = emitted st ++ [(t, FontStyle.bold, 14)] := by
  simp [addSectionTitle]

@[simp] lemma emitted_addSubSectionTitle (t : String) (st : RState) :
    emitted (addSubSectionTitle t st) = emitted st ++ [(t, FontStyle.bold, 12)] := by
  simp [addSubSectionTitle]

@[simp] lemma emitted_addField (w : Nat → String → List String) (l : String)
    (v : Option String) (b : Bool) (st : RState) :
    emitted (addField w l v b st) = emitted st ++ fieldEntries w l v b := by
  simp [addField, fieldEntries, emitted_drawLines, List.append_assoc]

/-- The instruction stream of the whole renderer is the concatenation of
the per-field and per-heading blocks, in source order. -/
lemma generatePDF_emitted (w : Nat → String → List String) (r : Report) :
    emitted (generatePDF w r) = (docBlocks w r).flatten := by
  unfold generatePDF docBlocks
  cases happ : r.appendices with
  | none => simp [happ, List.append_assoc]
  | some s =>
    by_cases hs : s = ""
    · simp [happ, hs, List.append_assoc]
    · simp [happ, hs, List.append_assoc]

lemma filter_flatten {α : Type} (p : α → Bool) (L : List (List α)) :
    L.flatten.filter p = (L.map (fun l => l.filter p)).flatten := by
  induction L with
  | nil => rfl
  | cons l L ih => simp [List.filter_append, ih]

lemma fieldEntries_filter_small (w : Nat → String → List String) (l : String)
    (v : Option String) (b : Bool) :
    (fieldEntries w l v b).filter (fun e => decide (12 ≤ e.2.2)) = [] := by
  simp [fieldEntries, List.filter_map, Function.comp]

/-- The 12pt-and-larger entries of any rendered document are exactly the
fixed heading skeleton, followed by the appendix heading exactly when the
`appendices` value is present and non-empty. -/
lemma sectionHeadings_spec (w : Nat → String → List String) (r : Report) :
    sectionHeadings w r
      = fixedHeadings
        ++ (if appendixShown r
            then [("Additional Notes / Appendices", FontStyle.bold, 14)] else []) := by
  unfold sectionHeadings
  rw [generatePDF_emitted, filter_flatten]
  unfold docBlocks fixedHeadings appendixShown
  cases happ : r.appendices with
  | none => simp [happ, fieldEntries_filter_small]
  | some s =>
    by_cases hs : s = ""
    · simp [happ, hs, fieldEntries_filter_small]
    · simp [happ, hs, fieldEntries_filter_small]

lemma sublist_append_skip {α : Type} (xs : List α) {l r : List α} (h : List.Sublist l r) :
    List.Sublist l (xs ++ r) :=
  h.trans (List.sublist_append_right xs r)

/-- The title, the four header-field labels and section 1's heading open
every rendered document, in that order. -/
lemma headerSkeleton_sublist (w : Nat → String → List String) (r : Report) :
    List.Sublist headerSkeleton (emitted (generatePDF w r)) := by
  rw [generatePDF_emitted]
  unfold docBlocks headerSkeleton fieldEntries
  simp only [List.flatten_cons, List.flatten_nil, List.flatten_append,
    List.append_nil, List.cons_append, List.singleton_append, List.append_assoc]
  apply List.Sublist.cons₂
  apply List.Sublist.cons₂
  apply sublist_append_skip
  apply List.Sublist.cons₂
  apply sublist_append_skip
  apply List.Sublist.cons₂
  apply sublist_append_skip
  apply List.Sublist.cons₂
  apply sublist_append_skip
  apply List.Sublist.cons₂
  exact List.nil_sublist _

/-! ### Claims about the renderer's document structure -/

/-- C3 (amended): the renderer emits, in order, the title block, the four
header fields, the twelve numbered sections ascending with their fixed
sub-structure (witnessed by the heading skeleton: the filtered 12pt-and-up
entries equal the fixed heading list), and the trailing appendix block is
emitted if and only if `appendices` is present AND non-empty (a present but
empty value is falsy in the source's `if (report.appendices)` and the block
is skipped). -/
theorem render_fixed_order (w : Nat → String → List String) (r : Report) :
    sectionHeadings w r
      = fixedHeadings
        ++ (if appendixShown r
            then [("Additional Notes / Appendices", FontStyle.bold, 14)] else []) ∧
    List.Sublist headerSkeleton (emitted (generatePDF w r)) :=
  ⟨sectionHeadings_spec w r, headerSkeleton_sublist w r⟩

/-- Counterexample for C3 as stated: a report whose `appendices` field is
present (an empty string) renders without the appendix block, so "emitted
if and only if present" fails. -/
theorem render_fixed_order_counterexample :
    rEmptyApp.appendices.isSome = true ∧
    ("Additional Notes / Appendices", FontStyle.bold, 14)
      ∉ sectionHeadings wrapOne rEmptyApp := by
  refine ⟨rfl, ?_⟩
  rw [sectionHeadings_spec, show appendixShown rEmptyApp = false from rfl]
  decide

/-- C4 (amended): a validated report in which one of the three labeled
optional fields (`yearOnYearComparison`, `leadingIndicators`,
`inspectorSignature`) is absent renders exactly as if that field held the
literal text `"N/A"` (same instruction stream, so the label is kept and the
value is never blank or omitted); moreover that field's heading or label
and the wrapped lines of the literal text `"N/A"` appear in order in the
stream.  Each field is covered independently, with no assumption on the
other optional fields.  The `appendices` field is carved out: absent
appendices omit their whole block (see the counterexample). -/
theorem optional_absent_renders_na (w : Nat → String → List String) (r : Report) :
    (r.healthAndSafetyPerformance.yearOnYearComparison = none →
      emitted (generatePDF w r)
        = emitted (generatePDF w
            { r with
              healthAndSafetyPerformance :=
                { r.healthAndSafetyPerformance with
                  yearOnYearComparison := some "N/A" } }) ∧
      List.Sublist
        ([("3.2 Year-on-Year Comparison", FontStyle.bold, 12),
          ("", FontStyle.normal, 10)]
          ++ (w 495 "N/A").map (fun s => (s, FontStyle.normal, 10)))
        (emitted (generatePDF w r))) ∧
    (r.healthAndSafetyPerformance.leadingIndicators = none →
      emitted (generatePDF w r)
        = emitted (generatePDF w
            { r with
              healthAndSafetyPerformance :=
                { r.healthAndSafetyPerformance with
                  leadingIndicators := some "N/A" } }) ∧
      List.Sublist
        ([("3.3 Leading Indicators", FontStyle.bold, 12),
          ("", FontStyle.normal, 10)]
          ++ (w 495 "N/A").map (fun s => (s, FontStyle.normal, 10)))
        (emitted (generatePDF w r))) ∧
    (r.signOff.inspectorSignature = none →
      emitted (generatePDF w r)
        = emitted (generatePDF w
            { r with signOff := { r.signOff with inspectorSignature := some "N/A" } }) ∧
      List.Sublist
        ([("Inspector Signature:", FontStyle.bold, 10)]
          ++ (w 495 "N/A").map (fun s => (s, FontStyle.normal, 10)))
        (emitted (generatePDF w r))) := by
  refine ⟨fun hy => ⟨?_, ?_⟩, fun hl => ⟨?_, ?_⟩, fun hsig => ⟨?_, ?_⟩⟩
  · rw [generatePDF_emitted, generatePDF_emitted]
    simp [docBlocks, fieldEntries, orNA, hy]
  · rw [generatePDF_emitted]
    unfold docBlocks fieldEntries
    simp only [hy, Option.getD_none, orNA, List.flatten_cons, List.flatten_nil,
      List.flatten_append, List.append_nil, List.cons_append, List.singleton_append,
      List.append_assoc, reduceIte]
    repeat
      first
      | exact List.nil_sublist _
      | exact List.sublist_append_left _ _
      | apply List.Sublist.cons₂
      | apply List.Sublist.cons
      | apply sublist_append_skip
  · rw [generatePDF_emitted, generatePDF_emitted]
    simp [docBlocks, fieldEntries, orNA, hl]
  · rw [generatePDF_emitted]
    unfold docBlocks fieldEntries
    simp only [hl, Option.getD_none, orNA, List.flatten_cons, List.flatten_nil,
      List.flatten_append, List.append_nil, List.cons_append, List.singleton_append,
      List.append_assoc, reduceIte]
    repeat
      first
      | exact List.nil_sublist _
      | exact List.sublist_append_left _ _
      | apply List.Sublist.cons₂
      | apply List.Sublist.cons
      | apply sublist_append_skip
  · rw [generatePDF_emitted, generatePDF_emitted]
    simp [docBlocks, fieldEntries, orNA, hsig]
  · rw [generatePDF_emitted]
    unfold docBlocks fieldEntries
    simp only [hsig, Option.getD_none, orNA, List.flatten_cons, List.flatten_nil,
      List.flatten_append, List.append_nil, List.cons_append, List.singleton_append,
      List.append_assoc, reduceIte]
    repeat
      first
      | exact List.nil_sublist _
      | exact List.sublist_append_left _ _
      | apply List.Sublist.cons₂
      | apply List.Sublist.cons
      | apply sublist_append_skip

/-- Witness for C4: a report with `yearOnYearComparison` absent (first
conjunct), one with only `leadingIndicators` absent and one with only
`inspectorSignature` absent (second and third conjuncts, each discharged
with no assumption on the other fields). -/
theorem optional_absent_renders_na_witness :
    (rNoOpt.healthAndSafetyPerformance.yearOnYearComparison = none ∧
      rNoLead.healthAndSafetyPerformance.leadingIndicators = none ∧
      rNoSig.signOff.inspectorSignature = none) ∧
    (emitted (generatePDF wrapOne rNoOpt)
        = emitted (generatePDF wrapOne
            { rNoOpt with
              healthAndSafetyPerformance :=
                { rNoOpt.healthAndSafetyPerformance with
                  yearOnYearComparison := some "N/A" } }) ∧
      List.Sublist
        ([("3.2 Year-on-Year Comparison", FontStyle.bold, 12),
          ("", FontStyle.normal, 10)]
          ++ (wrapOne 495 "N/A").map (fun s => (s, FontStyle.normal, 10)))
        (emitted (generatePDF wrapOne rNoOpt))) ∧
    (emitted (generatePDF wrapOne rNoLead)
        = emitted (generatePDF wrapOne
            { rNoLead with
              healthAndSafetyPerformance :=
                { rNoLead.healthAndSafetyPerformance with
                  leadingIndicators := some "N/A" } }) ∧
      List.Sublist
        ([("3.3 Leading Indicators", FontStyle.bold, 12),
          ("", FontStyle.normal, 10)]
          ++ (wrapOne 495 "N/A").map (fun s => (s, FontStyle.normal, 10)))
        (emitted (generatePDF wrapOne rNoLead))) ∧
    (emitted (generatePDF wrapOne rNoSig)
        = emitted (generatePDF wrapOne
            { rNoSig with
              signOff := { rNoSig.signOff with inspectorSignature := some "N/A" } }) ∧
      List.Sublist
        ([("Inspector Signature:", FontStyle.bold, 10)]
          ++ (wrapOne 495 "N/A").map (fun s => (s, FontStyle.normal, 10)))
        (emitted (generatePDF wrapOne rNoSig))) :=
  ⟨⟨rfl, rfl, rfl⟩,
    (optional_absent_renders_na wrapOne rNoOpt).1 rfl,
    (optional_absent_renders_na wrapOne rNoLead).2.1 rfl,
    (optional_absent_renders_na wrapOne rNoSig).2.2 rfl⟩

/-- Counterexample for C4 as stated over every optional field: with
`appendices` absent (and every other optional field filled), the rendered
stream contains no `"N/A"` text at all — the appendix block, label
included, is omitted instead of rendering a placeholder. -/
theorem optional_absent_renders_na_counterexample :
    rNoApp.appendices = none ∧
    (emitted (generatePDF wrapOne rNoApp)).all (fun e => e.1 != "N/A") = true := by
  refine ⟨rfl, ?_⟩
  rw [show emitted (generatePDF wrapOne rNoApp) = (docBlocks wrapOne rNoApp).flatten
    from generatePDF_emitted _ _]
  decide

/-! ### Claims about renderer purity and the empty-string placeholder -/

/-- C9: the renderer is a pure function of the report value: it starts from
a fresh document (`new jsPDF`, local cursor) on every invocation, so equal
reports render to identical page sequences and two invocations share no
state. -/
theorem render_deterministic (w : Nat → String → List String) (r₁ r₂ : Report)
    (h : r₁ = r₂) :
    renderPages w r₁ = renderPages w r₂ := by rw [h]

/-- Witness for C9: rendering the same concrete report twice. -/
theorem render_deterministic_witness :
    rFull = rFull ∧ renderPages wrapOne rFull = renderPages wrapOne rFull :=
  ⟨rfl, render_deterministic wrapOne rFull rFull rfl⟩

/-- C10: `addField` renders the `"N/A"` placeholder for a present-but-empty
value exactly as for an absent one (`value || "N/A"` treats the empty
string as falsy), so for every label, state and wrap capability the two
produce identical draw instructions. -/
theorem addField_empty_as_absent (w : Nat → String → List String) (l : String)
    (b : Bool) (st : RState) :
    addField w l (some "") b st = addField w l none b st := by
  simp [addField, orNA]

/-! ### Pagination lemmas -/

lemma lineRun_texts (y : Nat) (ls : List String) :
    (lineRun y ls).map (fun d => d.text) = ls := by
  induction ls generalizing y with
  | nil => rfl
  | cons l ls ih => simp [lineRun, ih]

lemma lineRun_head_y (y : Nat) (ls : List String) (h : ls ≠ []) :
    (lineRun y ls).head?.map (fun d => d.y) = some (y + 14) := by
  cases ls with
  | nil => exact absurd rfl h
  | cons l ls => rfl

lemma drawLines_append (a b : List String) (st : RState) :
    drawLines (a ++ b) st = drawLines b (drawLines a st) := by
  induction a generalizing st with
  | nil => rfl
  | cons l a ih => simp [drawLines, ih]

/-- Drawing a run of lines that all fit above the threshold: every line
lands on the current page at successive cursor positions, and the cursor
advances one line height per line. -/
lemma drawLines_no_overflow (ls : List String) (st : RState)
    (hfont : st.font = .normal) (hsize : st.size = 10)
    (h : st.yPos + 14 * ls.length ≤ 760) :
    drawLines ls st
      = { st with cur := st.cur ++ lineRun st.yPos ls,
                  yPos := st.yPos + 14 * ls.length } := by
  induction ls generalizing st with
  | nil =>
    simp only [drawLines, lineRun, List.append_nil, List.length_nil, Nat.mul_zero,
      Nat.add_zero]
  | cons l ls ih =>
    simp only [List.length_cons] at h
    have hy : ¬ ((bumpY 14 st).yPos > 760) := by simp [bumpY]; omega
    have hcheck : checkForNewPage (bumpY 14 st) = bumpY 14 st := by
      unfold checkForNewPage; rw [if_neg hy]
    rw [drawLines, hcheck,
      ih (putText l 60 (bumpY 14 st)) (by simp [hfont]) (by simp [hsize])
        (by simp; omega)]
    apply RState.ext
    all_goals simp [putText, bumpY, lineRun, hfont, hsize, List.append_assoc]
    omega

/-- Drawing a run of lines that crosses the threshold exactly once: the
`pre` lines land on the current page, the page is finalized, and the `post`
lines land on a fresh page starting at the top margin (the first at
`y = 36 + 14 = 50`). -/
lemma drawLines_split (pre post : List String) (st : RState)
    (hfont : st.font = .normal) (hsize : st.size = 10)
    (hpost : post ≠ [])
    (hfit : st.yPos + 14 * pre.length ≤ 760)
    (hover : 760 < st.yPos + 14 * (pre.length + 1))
    (hrest : 36 + 14 * post.length ≤ 760) :
    drawLines (pre ++ post) st
      = { done := st.done ++ [st.cur ++ lineRun st.yPos pre],
          cur := lineRun 36 post,
          yPos := 36 + 14 * post.length,
          font := st.font, size := st.size } := by
  obtain ⟨p, rest, rfl⟩ := List.exists_cons_of_ne_nil hpost
  simp only [List.length_cons] at hrest
  rw [drawLines_append, drawLines_no_overflow pre st hfont hsize hfit]
  set st1 : RState :=
    { st with cur := st.cur ++ lineRun st.yPos pre,
              yPos := st.yPos + 14 * pre.length } with hst1
  have htrig : (bumpY 14 st1).yPos > 760 := by simp [bumpY, hst1]; omega
  have hcheck : checkForNewPage (bumpY 14 st1)
      = { done := st.done ++ [st.cur ++ lineRun st.yPos pre], cur := [],
          yPos := 50, font := st.font, size := st.size } := by
    unfold checkForNewPage
    rw [if_pos htrig]
    apply RState.ext <;> simp [bumpY, hst1]
  rw [drawLines, hcheck,
    drawLines_no_overflow rest _ (by simp [hfont]) (by simp [hsize])
      (by simp [putText]; omega)]
  apply RState.ext
  all_goals simp [putText, lineRun, hfont, hsize, List.append_assoc, List.length_cons]
  all_goals omega

/-- C1: a field whose wrapped lines span the page-bottom threshold is split
by `addField` across exactly two consecutive pages: the overflow check runs
before each individual wrapped line, the `pre` lines (and the label) stay
on the current page, which is finalized, the `post` lines continue on the
new page with none duplicated or dropped (the two runs' texts are exactly
`pre` and `post`), and the first line on the new page is drawn at the
top-margin cursor position `y = 50`. -/
theorem addField_page_split (w : Nat → String → List String) (l : String)
    (v : Option String) (b : Bool) (st : RState) (pre post : List String)
    (hstart : st.yPos ≤ 760)
    (hsplit : w 495 (orNA v) = pre ++ post)
    (hpost : post ≠ [])
    (hfit : st.yPos + 14 * pre.length ≤ 760)
    (hover : 760 < st.yPos + 14 * (pre.length + 1))
    (hrest : 36 + 14 * post.length ≤ 760) :
    addField w l v b st
      = { done := st.done
            ++ [st.cur
                ++ ⟨40, st.yPos, if b then FontStyle.bold else FontStyle.normal, 10, l⟩
                  :: lineRun st.yPos pre],
          cur := lineRun 36 post,
          yPos := 36 + 14 * post.length + 14,
          font := FontStyle.normal, size := 10 } ∧
    (lineRun st.yPos pre).map (fun d => d.text) = pre ∧
    (lineRun 36 post).map (fun d => d.text) = post ∧
    (lineRun 36 post).head?.map (fun d => d.y) = some 50 := by
  refine ⟨?_, lineRun_texts _ _, lineRun_texts _ _, lineRun_head_y 36 post hpost⟩
  unfold addField
  have hc0 : checkForNewPage st = st := by
    unfold checkForNewPage; rw [if_neg (by omega)]
  rw [hc0, hsplit,
    drawLines_split pre post _ (by simp) (by simp) hpost
      (by simpa using hfit) (by simpa using hover) hrest]
  apply RState.ext
  all_goals simp [bumpY, putText, List.append_assoc]

/-- Witness for C1: at cursor 740, a two-line field splits after its first
line (740 + 14 = 754 fits, 754 + 14 = 768 overflows), continuing at the top
margin of a fresh page. -/
theorem addField_page_split_witness :
    (stC1.yPos ≤ 760 ∧
      wrapTwoLines 495 (orNA (some "text")) = ["line one"] ++ ["line two"] ∧
      (["line two"] : List String) ≠ [] ∧
      stC1.yPos + 14 * (["line one"] : List String).length ≤ 760 ∧
      760 < stC1.yPos + 14 * ((["line one"] : List String).length + 1) ∧
      36 + 14 * (["line two"] : List String).length ≤ 760) ∧
    (addField wrapTwoLines "L" (some "text") true stC1
        = { done := stC1.done
              ++ [stC1.cur
                  ++ ⟨40, stC1.yPos, if true then FontStyle.bold else FontStyle.normal,
                        10, "L"⟩
                    :: lineRun stC1.yPos ["line one"]],
            cur := lineRun 36 ["line two"],
            yPos := 36 + 14 * (["line two"] : List String).length + 14,
            font := FontStyle.normal, size := 10 } ∧
      (lineRun stC1.yPos ["line one"]).map (fun d => d.text) = ["line one"] ∧
      (lineRun 36 ["line two"]).map (fun d => d.text) = ["line two"] ∧
      (lineRun 36 ["line two"]).head?.map (fun d => d.y) = some 50) :=
  ⟨⟨by decide, rfl, by decide, by decide, by decide, by decide⟩,
    addField_page_split wrapTwoLines "L" (some "text") true stC1
      ["line one"] ["line two"] (by decide) rfl (by decide) (by decide)
      (by decide) (by decide)⟩

/-! ### Claims about the storage actions -/

/-- C7: `editReport` merges the payload into the record whose `id` equals
the target id while keeping that record's stored `id` (the spread
`{ ...report, ...data }` keeps `report.id` since the payload carries no
`id`; identity is never recomputed), and leaves every record with a
different `id` unchanged. -/
theorem editReport_preserves_identity {α : Type} (reports : List (StoredReport α))
    (tid : String) (d : α) (i : Nat) :
    ((editReport reports tid d).1[i]?).map StoredReport.id
        = (reports[i]?).map StoredReport.id ∧
    (∀ r, reports[i]? = some r → r.id ≠ tid →
      (editReport reports tid d).1[i]? = some r) ∧
    (∀ r, reports[i]? = some r → r.id = tid →
      (editReport reports tid d).1[i]? = some ⟨r.id, d⟩) := by
  unfold editReport
  simp only [List.getElem?_map]
  refine ⟨?_, ?_, ?_⟩
  · cases h : reports[i]? with
    | none => rfl
    | some r =>
      by_cases hid : r.id = tid <;> simp [hid]
  · intro r h hne
    simp [h, hne]
  · intro r h hid
    simp [h, hid]

/-- Witness for C7: editing the record with id `"2"` in a two-record store
replaces its data, keeps its id, and leaves the other record unchanged. -/
theorem editReport_preserves_identity_witness :
    ((editReport storeTwo "2" (7 : Nat)).1[1]?).map StoredReport.id
        = (storeTwo[1]?).map StoredReport.id ∧
    (editReport storeTwo "2" (7 : Nat)).1[1]? = some ⟨"2", 7⟩ ∧
    (editReport storeTwo "2" (7 : Nat)).1[0]? = some ⟨"1", 0⟩ := by
  obtain ⟨h1, _, h3⟩ := editReport_preserves_identity storeTwo "2" (7 : Nat) 1
  obtain ⟨_, g2, _⟩ := editReport_preserves_identity storeTwo "2" (7 : Nat) 0
  exact ⟨h1, h3 ⟨"2", 5⟩ (by decide) rfl, g2 ⟨"1", 0⟩ (by decide) (by decide)⟩

/-- C8 (amended): deleting an id that does not occur leaves the stored
collection unchanged and raises no exception, but the boolean success flag
does NOT report the failure: `deleteReport` returns `{ success: true }`
unconditionally. -/
theorem deleteReport_missing_id {α : Type} (reports : List (StoredReport α))
    (id : String) (h : ∀ r ∈ reports, r.id ≠ id) :
    deleteReport reports id = (reports, ⟨true⟩) := by
  unfold deleteReport
  rw [List.filter_eq_self.mpr (fun r hr => by simp [h r hr])]

/-- Witness for C8: deleting the absent id `"2"` from a one-record store. -/
theorem deleteReport_missing_id_witness :
    (∀ r ∈ storeOne, r.id ≠ "2") ∧
    deleteReport storeOne "2" = (storeOne, ⟨true⟩) :=
  ⟨by decide, deleteReport_missing_id storeOne "2" (by decide)⟩

/-- Counterexample for C8 as stated: for the absent id `"2"`, the success
flag is `true` — the storage failure is not reported through it. -/
theorem deleteReport_missing_id_counterexample :
    (∀ r ∈ storeOne, r.id ≠ "2") ∧
    (deleteReport storeOne "2").2.success = true ∧
    (deleteReport storeOne "2").1 = storeOne := by
  refine ⟨by decide, by decide, by decide⟩

end OhsReport
